import Mathlib

/-!
Shallow embedding of the paint-calculator web application
(app/components/PaintCalculator.js) and proofs about its calculation
engine, unit conversion and export formatting.

JavaScript numbers are modelled as exact rationals plus a NaN marker
(`JSNum`); IEEE-754 rounding is abstracted away, while the NaN
propagation of the arithmetic operators is modelled exactly.  A value
sitting in an input field (a number, or a string that `parseFloat`
reads) is a `JSVal`.  Division by zero never occurs in any reachable
call (the only divisors are the fixed, nonzero coverage constants and
the literal 100), so `JSNum` division maps a zero divisor to `nan`.
-/

namespace PaintCalc

/-- A value stored in a dimension field of the UI state: either a value
that `parseFloat` reads as the rational `q` (a number, or a numeric
string), or a string `parseFloat` cannot parse (which parses to NaN). -/
inductive JSVal where
  | numv (q : ℚ)
  | nonNumeric
deriving DecidableEq

/-- A JavaScript number: an exact rational, or NaN. -/
inductive JSNum where
  | nan
  | num (q : ℚ)
deriving DecidableEq

/-- JavaScript `parseFloat` applied to a field value. -/
def parseFloat : JSVal → JSNum
  | JSVal.numv q => JSNum.num q
  | JSVal.nonNumeric => JSNum.nan

/-- JavaScript `+` on numbers: NaN absorbs. -/
def JSNum.add : JSNum → JSNum → JSNum
  | JSNum.num a, JSNum.num b => JSNum.num (a + b)
  | _, _ => JSNum.nan

/-- JavaScript `*` on numbers: NaN absorbs. -/
def JSNum.mul : JSNum → JSNum → JSNum
  | JSNum.num a, JSNum.num b => JSNum.num (a * b)
  | _, _ => JSNum.nan

/-- JavaScript binary `-` on numbers: NaN absorbs. -/
def JSNum.sub : JSNum → JSNum → JSNum
  | JSNum.num a, JSNum.num b => JSNum.num (a - b)
  | _, _ => JSNum.nan

/-- JavaScript `/` on numbers: NaN absorbs.  A zero divisor is mapped to
NaN; in the source the divisor is always a nonzero coverage constant or
the literal 100, so this case is unreachable. -/
def JSNum.div : JSNum → JSNum → JSNum
  | JSNum.num a, JSNum.num b => if b = 0 then JSNum.nan else JSNum.num (a / b)
  | _, _ => JSNum.nan

instance : Add JSNum := ⟨JSNum.add⟩
instance : Mul JSNum := ⟨JSNum.mul⟩
instance : Sub JSNum := ⟨JSNum.sub⟩
instance : Div JSNum := ⟨JSNum.div⟩

/-- JavaScript `Math.max(0, x)`: NaN if `x` is NaN. -/
def jsMax0 : JSNum → JSNum
  | JSNum.num q => JSNum.num (max 0 q)
  | JSNum.nan => JSNum.nan

/-- JavaScript `Math.ceil`: NaN if the argument is NaN. -/
def jsCeil : JSNum → JSNum
  | JSNum.num q => JSNum.num ⌈q⌉
  | JSNum.nan => JSNum.nan

/-- Truncation toward zero, as JavaScript `parseInt` performs on a
numeric argument. -/
def jsTrunc (q : ℚ) : ℤ := if 0 ≤ q then ⌊q⌋ else ⌈q⌉

/-- Models the source pattern `parseInt(v) || 1`: a value that parses to
NaN, and also the falsy integer 0, are replaced by 1. -/
def parseIntOr1 : JSVal → ℚ
  | JSVal.numv q => if jsTrunc q = 0 then 1 else (jsTrunc q : ℚ)
  | JSVal.nonNumeric => 1

/-- The `action` tag of an opening; the UI only ever produces these two
values (the treatment select box has exactly these options). -/
inductive Action where
  | add
  | subtract
deriving DecidableEq

/-- The keys of the `OPENING_TYPES` table. -/
inductive OpeningKind where
  | prefinishedDoor
  | paintableDoor
  | window
  | slidingDoor
  | wardrobe
  | grill
deriving DecidableEq

/-- One entry of the `OPENING_TYPES` table. -/
structure OpeningTypeConfig where
  label : String
  action : Action
  defaultWidth : ℚ
  defaultHeight : ℚ
  faces : ℚ
deriving DecidableEq

/-- The `OPENING_TYPES` constant table of the source. -/
def OPENING_TYPES : OpeningKind → OpeningTypeConfig
  | OpeningKind.prefinishedDoor => ⟨"Pre-finished Door", Action.subtract, 3, 7, 0⟩
  | OpeningKind.paintableDoor => ⟨"Paintable Door", Action.add, 3, 7, 2⟩
  | OpeningKind.window => ⟨"Window", Action.subtract, 4, 3, 0⟩
  | OpeningKind.slidingDoor => ⟨"Sliding Door", Action.subtract, 6, 7, 0⟩
  | OpeningKind.wardrobe => ⟨"Built-in Wardrobe", Action.add, 6, 8, 1⟩
  | OpeningKind.grill => ⟨"Grill/Gate", Action.add, 3, 7, 2⟩

/-- The keys of the `PAINT_TYPES` table. -/
inductive PaintType where
  | interior
  | exterior
  | enamel
  | primer
  | ceiling
deriving DecidableEq

/-- The two supported unit systems. -/
inductive UnitSystem where
  | imperial
  | metric
deriving DecidableEq

/-- One entry of the `PAINT_TYPES` table (label and the per-unit-system
coverage rates). -/
structure PaintTypeConfig where
  label : String
  coverage : UnitSystem → ℚ

/-- The `PAINT_TYPES` constant table of the source. -/
def PAINT_TYPES : PaintType → PaintTypeConfig
  | PaintType.interior =>
      ⟨"Interior Wall Paint", fun u => match u with
        | UnitSystem.imperial => 350
        | UnitSystem.metric => 32.5⟩
  | PaintType.exterior =>
      ⟨"Exterior Paint", fun u => match u with
        | UnitSystem.imperial => 300
        | UnitSystem.metric => 28⟩
  | PaintType.enamel =>
      ⟨"Enamel Paint", fun u => match u with
        | UnitSystem.imperial => 400
        | UnitSystem.metric => 37⟩
  | PaintType.primer =>
      ⟨"Primer", fun u => match u with
        | UnitSystem.imperial => 400
        | UnitSystem.metric => 37⟩
  | PaintType.ceiling =>
      ⟨"Ceiling Paint", fun u => match u with
        | UnitSystem.imperial => 400
        | UnitSystem.metric => 37⟩

/-- One entry of the `UNIT_SYSTEMS` constant table. -/
structure UnitConfig where
  name : String
  length : String
  smallLength : String
  area : String
  volume : String
  volumeAbbr : String
  conversionToMetric : ℚ
  areaConversion : ℚ

/-- The `UNIT_SYSTEMS` constant table of the source. -/
def UNIT_SYSTEMS : UnitSystem → UnitConfig
  | UnitSystem.imperial =>
      ⟨"Imperial", "ft", "in", "sq ft", "gallon", "gal", 0.3048, 0.092903⟩
  | UnitSystem.metric =>
      ⟨"Metric", "m", "cm", "sq m", "litre", "L", 1, 1⟩

/-- The paint settings record.  `coats` and `wastagePercent` are numbers
in the source (the settings panel feeds them through `parseInt`). -/
structure Settings where
  coats : ℚ
  wastagePercent : ℚ
  includeCeiling : Bool
  paintType : PaintType
deriving DecidableEq

/-- The `DEFAULT_SETTINGS` constant of the source. -/
def DEFAULT_SETTINGS : Settings := ⟨2, 10, true, PaintType.interior⟩

/-- An opening record.  The source field `type` is a string key into
`OPENING_TYPES`; it is modelled as `otype`, with `none` standing for a
key that is not in the table (the `OPENING_TYPES[opening.type]?.faces`
access).  `customFaces` is the optional face-count override. -/
structure Opening where
  otype : Option OpeningKind
  width : JSVal
  height : JSVal
  quantity : JSVal
  action : Action
  customFaces : Option ℚ := none
deriving DecidableEq

/-- A room record. -/
structure Room where
  id : String
  name : String
  length : JSVal
  width : JSVal
  height : JSVal
  openings : List Opening
deriving DecidableEq

/-- `CalculationEngine.calculateWallArea`. -/
def calculateWallArea (length width height : JSVal) : JSNum :=
  let perimeter := JSNum.num 2 * (parseFloat length + parseFloat width)
  perimeter * parseFloat height

/-- `CalculationEngine.calculateCeilingArea`. -/
def calculateCeilingArea (length width : JSVal) : JSNum :=
  parseFloat length * parseFloat width

/-- The face count used by `calculateOpeningArea`:
`opening.customFaces ?? OPENING_TYPES[opening.type]?.faces ?? 0`. -/
def openingFaces (o : Opening) : ℚ :=
  match o.customFaces with
  | some f => f
  | none =>
    match o.otype with
    | some k => (OPENING_TYPES k).faces
    | none => 0

/-- `CalculationEngine.calculateOpeningArea`. -/
def calculateOpeningArea (o : Opening) : JSNum :=
  let baseArea := parseFloat o.width * parseFloat o.height
  let quantity := parseIntOr1 o.quantity
  let faces := openingFaces o
  match o.action with
  | Action.add => baseArea * JSNum.num quantity * JSNum.num (max faces 1)
  | Action.subtract => baseArea * JSNum.num quantity

/-- The per-room result record returned by `calculateRoomArea`. -/
structure RoomCalc where
  wallArea : JSNum
  ceilingArea : JSNum
  subtractArea : JSNum
  addArea : JSNum
  netWallArea : JSNum
  totalPaintableArea : JSNum
deriving DecidableEq

/-- One step of the `forEach` loop in `calculateRoomArea`, accumulating
the subtract and add sums. -/
def accumulateOpening (acc : JSNum × JSNum) (o : Opening) : JSNum × JSNum :=
  let area := calculateOpeningArea o
  match o.action with
  | Action.subtract => (acc.1 + area, acc.2)
  | Action.add => (acc.1, acc.2 + area)

/-- `CalculationEngine.calculateRoomArea`. -/
def calculateRoomArea (room : Room) (includeCeiling : Bool) : RoomCalc :=
  let wallArea := calculateWallArea room.length room.width room.height
  let ceilingArea :=
    if includeCeiling then calculateCeilingArea room.length room.width else JSNum.num 0
  let sums := room.openings.foldl accumulateOpening (JSNum.num 0, JSNum.num 0)
  { wallArea := wallArea
    ceilingArea := ceilingArea
    subtractArea := sums.1
    addArea := sums.2
    netWallArea := jsMax0 (wallArea - sums.1)
    totalPaintableArea := jsMax0 (wallArea - sums.1) + ceilingArea + sums.2 }

/-- The record returned by `calculatePaintRequired`. -/
structure PaintResult where
  base : JSNum
  withCoats : JSNum
  withWastage : JSNum
  rounded : JSNum
deriving DecidableEq

/-- `CalculationEngine.calculatePaintRequired`. -/
def calculatePaintRequired (area coverage coats wastagePercent : JSNum) : PaintResult :=
  let baseAmount := area / coverage
  let withCoats := baseAmount * coats
  let withWastage := withCoats * (JSNum.num 1 + wastagePercent / JSNum.num 100)
  { base := baseAmount
    withCoats := withCoats
    withWastage := withWastage
    rounded := jsCeil withWastage }

/-- A room paired with its `calculations` field, as pushed onto
`results.rooms` by `calculateAll`. -/
structure RoomWithCalc where
  room : Room
  calculations : RoomCalc
deriving DecidableEq

/-- The full result record of `calculateAll`. -/
structure Results where
  rooms : List RoomWithCalc
  totals : RoomCalc
  paint : PaintResult
  settings : Settings
  unitSystem : UnitSystem
  coverage : ℚ

/-- The all-zero totals record `calculateAll` starts from. -/
def zeroTotals : RoomCalc :=
  ⟨JSNum.num 0, JSNum.num 0, JSNum.num 0, JSNum.num 0, JSNum.num 0, JSNum.num 0⟩

/-- Key-wise accumulation of one room calculation into the totals, as in
the `Object.keys(results.totals).forEach` loop. -/
def addTotals (a b : RoomCalc) : RoomCalc :=
  ⟨a.wallArea + b.wallArea, a.ceilingArea + b.ceilingArea,
   a.subtractArea + b.subtractArea, a.addArea + b.addArea,
   a.netWallArea + b.netWallArea, a.totalPaintableArea + b.totalPaintableArea⟩

/-- `CalculationEngine.calculateAll`. -/
def calculateAll (rooms : List Room) (settings : Settings) (unitSystem : UnitSystem) :
    Results :=
  let roomResults := rooms.map (fun r => RoomWithCalc.mk r (calculateRoomArea r settings.includeCeiling))
  let totals := roomResults.foldl (fun acc rc => addTotals acc rc.calculations) zeroTotals
  let coverage := (PAINT_TYPES settings.paintType).coverage unitSystem
  let paint := calculatePaintRequired totals.totalPaintableArea (JSNum.num coverage)
    (JSNum.num settings.coats) (JSNum.num settings.wastagePercent)
  { rooms := roomResults
    totals := totals
    paint := paint
    settings := settings
    unitSystem := unitSystem
    coverage := coverage }

/-- The `results` memo of the `PaintCalculator` component: with zero
rooms there is no computed result (`null`). -/
def results (rooms : List Room) (settings : Settings) (unitSystem : UnitSystem) :
    Option Results :=
  if rooms.length = 0 then none
  else some (calculateAll rooms settings unitSystem)

/-- The integer of hundredths selected by JavaScript `toFixed(2)`: the
integer n for which n/100 is closest to q, ties resolved to the larger
candidate. -/
def round2Int (q : ℚ) : ℤ := ⌊q * 100 + 1 / 2⌋

/-- The numeric value of the decimal string `q.toFixed(2)`. -/
def round2 (q : ℚ) : ℚ := (round2Int q : ℚ) / 100

/-- Two-digit rendering of a number of hundredths below 100. -/
def twoDigits (n : ℕ) : String :=
  if n < 10 then "0" ++ toString n else toString n

/-- Decimal rendering of a nonnegative count of hundredths. -/
def fmtHundredthsNat (m : ℕ) : String :=
  toString (m / 100) ++ "." ++ twoDigits (m % 100)

/-- Decimal rendering of a count of hundredths. -/
def fmtHundredths (n : ℤ) : String :=
  if n < 0 then "-" ++ fmtHundredthsNat n.natAbs else fmtHundredthsNat n.natAbs

/-- JavaScript `x.toFixed(2)` on a number `x`. -/
def toFixed2 : JSNum → String
  | JSNum.nan => "NaN"
  | JSNum.num q => fmtHundredths (round2Int q)

/-- Decimal digits of a fractional part in `[0, 1)`, fuelled; every
number interpolated into the export strings has a short finite decimal
expansion, so the fuel of 20 is never exhausted there. -/
def fracDigits : ℕ → ℚ → String
  | 0, _ => ""
  | Nat.succ fuel, q =>
    if q = 0 then ""
    else toString ⌊q * 10⌋ ++ fracDigits fuel (q * 10 - (⌊q * 10⌋ : ℚ))

/-- Decimal rendering of a nonnegative rational with finite decimal
expansion, as JavaScript string interpolation prints such a number. -/
def ratToStringNonneg (q : ℚ) : String :=
  if q - (⌊q⌋ : ℚ) = 0 then toString ⌊q⌋
  else toString ⌊q⌋ ++ "." ++ fracDigits 20 (q - (⌊q⌋ : ℚ))

/-- Decimal rendering of a rational with finite decimal expansion, as
JavaScript string interpolation prints such a number. -/
def ratToString (q : ℚ) : String :=
  if q < 0 then "-" ++ ratToStringNonneg (-q) else ratToStringNonneg q

/-- String interpolation of a JavaScript number. -/
def jsNumToString : JSNum → String
  | JSNum.nan => "NaN"
  | JSNum.num q => ratToString q

/-- One row of the room table of `ExportUtils.toCSV`: the quoted room
name followed by the five per-room area figures fixed to two decimals. -/
def roomRow (rc : RoomWithCalc) : String :=
  "\"" ++ rc.room.name ++ "\"," ++
  toFixed2 rc.calculations.wallArea ++ "," ++
  toFixed2 rc.calculations.ceilingArea ++ "," ++
  toFixed2 rc.calculations.subtractArea ++ "," ++
  toFixed2 rc.calculations.addArea ++ "," ++
  toFixed2 rc.calculations.totalPaintableArea ++ "\n"

/-- `ExportUtils.toCSV`. -/
def toCSV (results : Results) : String :=
  let units := UNIT_SYSTEMS results.unitSystem
  let csv := "Paint Calculator Estimate\n\n"
  let csv := csv ++ "Room Details\n"
  let csv := csv ++ "Room Name,Wall Area,Ceiling Area,Subtract Area,Add Area,Net Paintable Area\n"
  let csv := results.rooms.foldl (fun acc rc => acc ++ roomRow rc) csv
  let csv := csv ++ "\nTotals\n"
  let csv := csv ++ "Total Wall Area," ++ toFixed2 results.totals.wallArea ++ " " ++ units.area ++ "\n"
  let csv := csv ++ "Total Ceiling Area," ++ toFixed2 results.totals.ceilingArea ++ " " ++ units.area ++ "\n"
  let csv := csv ++ "Total Subtract Area," ++ toFixed2 results.totals.subtractArea ++ " " ++ units.area ++ "\n"
  let csv := csv ++ "Total Add Area," ++ toFixed2 results.totals.addArea ++ " " ++ units.area ++ "\n"
  let csv := csv ++ "Net Paintable Area," ++ toFixed2 results.totals.totalPaintableArea ++ " " ++ units.area ++ "\n"
  let csv := csv ++ "\nPaint Required\n"
  let csv := csv ++ "Coats," ++ ratToString results.settings.coats ++ "\n"
  let csv := csv ++ "Wastage," ++ ratToString results.settings.wastagePercent ++ "%\n"
  let csv := csv ++ "Coverage," ++ ratToString results.coverage ++ " " ++ units.area ++ "/" ++ units.volumeAbbr ++ "\n"
  let csv := csv ++ "Paint Required," ++ toFixed2 results.paint.withWastage ++ " " ++ units.volumeAbbr ++ "\n"
  csv ++ "Recommended Purchase," ++ jsNumToString results.paint.rounded ++ " " ++ units.volumeAbbr ++ "\n"

/-- The rescaling `handleUnitChange` applies to one stored dimension:
`(parseFloat(v) * factor).toFixed(2)`, stored back as a string.  A
non-numeric field stays non-numeric (NaN times the factor is NaN). -/
def convDim (factor : ℚ) (v : JSVal) : JSVal :=
  match parseFloat v with
  | JSNum.nan => JSVal.nonNumeric
  | JSNum.num q => JSVal.numv (round2 (q * factor))

/-- The per-opening rescaling inside `handleUnitChange`. -/
def convertOpening (factor : ℚ) (o : Opening) : Opening :=
  { o with width := convDim factor o.width, height := convDim factor o.height }

/-- The per-room rescaling inside `handleUnitChange`. -/
def convertRoom (factor : ℚ) (r : Room) : Room :=
  { r with
    length := convDim factor r.length
    width := convDim factor r.width
    height := convDim factor r.height
    openings := r.openings.map (convertOpening factor) }

/-- `handleUnitChange` of the `PaintCalculator` component: returns the
new unit system and the rescaled room list (the two `setState` calls). -/
def handleUnitChange (unitSystem : UnitSystem) (rooms : List Room) (newUnit : UnitSystem) :
    UnitSystem × List Room :=
  if newUnit = unitSystem then (unitSystem, rooms)
  else
    let factor : ℚ := if newUnit = UnitSystem.metric then 0.3048 else 3.28084
    (newUnit, rooms.map (convertRoom factor))

/-- The example data of the `ExamplePanel` component (also the README
walk-through): the room list. -/
def exampleRooms : List Room :=
  [{ id := "1", name := "Living Room",
     length := JSVal.numv 20, width := JSVal.numv 15, height := JSVal.numv 9,
     openings :=
       [{ otype := some OpeningKind.prefinishedDoor, width := JSVal.numv 3,
          height := JSVal.numv 7, quantity := JSVal.numv 1,
          action := Action.subtract, customFaces := none },
        { otype := some OpeningKind.window, width := JSVal.numv 6,
          height := JSVal.numv 4, quantity := JSVal.numv 2,
          action := Action.subtract, customFaces := none }] },
   { id := "2", name := "Master Bedroom",
     length := JSVal.numv 14, width := JSVal.numv 12, height := JSVal.numv 9,
     openings :=
       [{ otype := some OpeningKind.paintableDoor, width := JSVal.numv 3,
          height := JSVal.numv 7, quantity := JSVal.numv 1,
          action := Action.add, customFaces := some 2 },
        { otype := some OpeningKind.window, width := JSVal.numv 4,
          height := JSVal.numv 3, quantity := JSVal.numv 1,
          action := Action.subtract, customFaces := none },
        { otype := some OpeningKind.wardrobe, width := JSVal.numv 8,
          height := JSVal.numv 8, quantity := JSVal.numv 1,
          action := Action.add, customFaces := some 1 }] }]

/-- The example data of the `ExamplePanel` component: the settings. -/
def exampleSettings : Settings := ⟨2, 10, true, PaintType.interior⟩

/-- Specification-side sum: the total area of the openings carrying the
given action tag, in list order. -/
def sumOpeningAreas (a : Action) (openings : List Opening) : JSNum :=
  openings.foldl
    (fun acc o => if o.action = a then acc + calculateOpeningArea o else acc)
    (JSNum.num 0)

/-- Order between two computed JavaScript numbers: both are actual
numbers and the first is at most the second. -/
def JSNum.le (a b : JSNum) : Prop :=
  ∃ x y : ℚ, a = JSNum.num x ∧ b = JSNum.num y ∧ x ≤ y

/-- Concrete room used to instantiate the room-area theorem: its single
subtract opening is larger than the walls, exercising the floor at
zero. -/
def roomW1 : Room :=
  ⟨"w1", "Closet", JSVal.numv 10, JSVal.numv 5, JSVal.numv 2,
    [⟨some OpeningKind.window, JSVal.numv 100, JSVal.numv 1, JSVal.numv 1,
      Action.subtract, none⟩]⟩

/-- Concrete opening used to instantiate the opening-area theorem: a
paintable door with a face-count override of 2. -/
def openW2 : Opening :=
  ⟨some OpeningKind.paintableDoor, JSVal.numv 3, JSVal.numv 7, JSVal.numv 1,
    Action.add, some 2⟩

/-- Concrete opening with a non-numeric width, used to instantiate the
NaN-propagation theorem. -/
def openW9 : Opening :=
  ⟨some OpeningKind.window, JSVal.nonNumeric, JSVal.numv 3, JSVal.numv 1,
    Action.subtract, none⟩

/-- Concrete room with a non-numeric length, used to instantiate the
NaN-propagation theorem. -/
def roomW9 : Room :=
  ⟨"w9", "Garage", JSVal.nonNumeric, JSVal.numv 5, JSVal.numv 2, []⟩

end PaintCalc

namespace PaintCalc

@[simp] lemma parseFloat_numv (q : ℚ) : parseFloat (JSVal.numv q) = JSNum.num q := rfl

@[simp] lemma parseFloat_nonNumeric : parseFloat JSVal.nonNumeric = JSNum.nan := rfl

@[simp] lemma num_add_num (a b : ℚ) : JSNum.num a + JSNum.num b = JSNum.num (a + b) := rfl

@[simp] lemma num_mul_num (a b : ℚ) : JSNum.num a * JSNum.num b = JSNum.num (a * b) := rfl

@[simp] lemma num_sub_num (a b : ℚ) : JSNum.num a - JSNum.num b = JSNum.num (a - b) := rfl

@[simp] lemma nan_add (x : JSNum) : JSNum.nan + x = JSNum.nan := by cases x <;> rfl

@[simp] lemma add_nan (x : JSNum) : x + JSNum.nan = JSNum.nan := by cases x <;> rfl

@[simp] lemma nan_mul (x : JSNum) : JSNum.nan * x = JSNum.nan := by cases x <;> rfl

@[simp] lemma mul_nan (x : JSNum) : x * JSNum.nan = JSNum.nan := by cases x <;> rfl

@[simp] lemma nan_sub (x : JSNum) : JSNum.nan - x = JSNum.nan := by cases x <;> rfl

@[simp] lemma sub_nan (x : JSNum) : x - JSNum.nan = JSNum.nan := by cases x <;> rfl

@[simp] lemma num_div_num (a b : ℚ) :
    JSNum.num a / JSNum.num b = if b = 0 then JSNum.nan else JSNum.num (a / b) := rfl

@[simp] lemma jsMax0_num (q : ℚ) : jsMax0 (JSNum.num q) = JSNum.num (max 0 q) := rfl

@[simp] lemma jsMax0_nan : jsMax0 JSNum.nan = JSNum.nan := rfl

@[simp] lemma jsCeil_num (q : ℚ) : jsCeil (JSNum.num q) = JSNum.num ⌈q⌉ := rfl

@[simp] lemma jsCeil_nan : jsCeil JSNum.nan = JSNum.nan := rfl

@[simp] lemma jsTrunc_intCast (n : ℤ) : jsTrunc (n : ℚ) = n := by
  unfold jsTrunc
  rcases le_or_lt 0 (n : ℚ) with h | h
  · rw [if_pos h, Int.floor_intCast]
  · rw [if_neg (not_le.mpr h), Int.ceil_intCast]

lemma parseIntOr1_int (n : ℤ) (hn : n ≠ 0) :
    parseIntOr1 (JSVal.numv (n : ℚ)) = (n : ℚ) := by
  have h : parseIntOr1 (JSVal.numv (n : ℚ)) =
      if jsTrunc (n : ℚ) = 0 then 1 else (jsTrunc (n : ℚ) : ℚ) := rfl
  rw [h, jsTrunc_intCast, if_neg hn]

lemma foldl_accumulateOpening_fst (l : List Opening) (p : JSNum × JSNum) :
    (l.foldl accumulateOpening p).1 =
      l.foldl
        (fun acc o => if o.action = Action.subtract then acc + calculateOpeningArea o else acc)
        p.1 := by
  induction l generalizing p with
  | nil => rfl
  | cons o l ih =>
    rw [List.foldl_cons, List.foldl_cons, ih]
    cases h : o.action <;> simp [accumulateOpening, h]

lemma foldl_accumulateOpening_snd (l : List Opening) (p : JSNum × JSNum) :
    (l.foldl accumulateOpening p).2 =
      l.foldl
        (fun acc o => if o.action = Action.add then acc + calculateOpeningArea o else acc)
        p.2 := by
  induction l generalizing p with
  | nil => rfl
  | cons o l ih =>
    rw [List.foldl_cons, List.foldl_cons, ih]
    cases h : o.action <;> simp [accumulateOpening, h]

lemma sumOpeningAreas_subtract (l : List Opening) :
    (l.foldl accumulateOpening (JSNum.num 0, JSNum.num 0)).1 =
      sumOpeningAreas Action.subtract l := by
  rw [sumOpeningAreas, foldl_accumulateOpening_fst]

lemma sumOpeningAreas_add (l : List Opening) :
    (l.foldl accumulateOpening (JSNum.num 0, JSNum.num 0)).2 =
      sumOpeningAreas Action.add l := by
  rw [sumOpeningAreas, foldl_accumulateOpening_snd]

lemma openingFaces_eq_getD (o : Opening) :
    openingFaces o =
      o.customFaces.getD
        (match o.otype with
          | some k => (OPENING_TYPES k).faces
          | none => 0) := by
  obtain ⟨ot, w, h, q, a, cf⟩ := o
  cases cf <;> rfl

/-- C1: for every room with positive numeric length L, width W, height H
and openings whose action is add or subtract, and every includeCeiling
flag, calculateRoomArea returns wallArea = 2(L+W)H, ceilingArea = LW if
the ceiling is included and 0 otherwise, subtractArea and addArea equal
to the sums of opening areas partitioned by action, netWallArea =
max(0, wallArea - subtractArea) — hence never negative — and
totalPaintableArea = netWallArea + ceilingArea + addArea. -/
theorem C1_calculateRoomArea_spec (room : Room) (ic : Bool) (L W H S A : ℚ)
    (hL : room.length = JSVal.numv L) (hW : room.width = JSVal.numv W)
    (hH : room.height = JSVal.numv H)
    (hLpos : 0 < L) (hWpos : 0 < W) (hHpos : 0 < H)
    (hS : sumOpeningAreas Action.subtract room.openings = JSNum.num S)
    (hA : sumOpeningAreas Action.add room.openings = JSNum.num A) :
    (calculateRoomArea room ic).wallArea = JSNum.num (2 * (L + W) * H) ∧
    (calculateRoomArea room ic).ceilingArea = JSNum.num (if ic then L * W else 0) ∧
    (calculateRoomArea room ic).subtractArea = sumOpeningAreas Action.subtract room.openings ∧
    (calculateRoomArea room ic).addArea = sumOpeningAreas Action.add room.openings ∧
    (calculateRoomArea room ic).netWallArea = JSNum.num (max 0 (2 * (L + W) * H - S)) ∧
    (∀ q : ℚ, (calculateRoomArea room ic).netWallArea = JSNum.num q → 0 ≤ q) ∧
    (calculateRoomArea room ic).totalPaintableArea =
      JSNum.num (max 0 (2 * (L + W) * H - S) + (if ic then L * W else 0) + A) := by
  have hwall : calculateWallArea room.length room.width room.height
      = JSNum.num (2 * (L + W) * H) := by
    rw [hL, hW, hH]
    simp [calculateWallArea]
  have hceil : (if ic then calculateCeilingArea room.length room.width else JSNum.num 0)
      = JSNum.num (if ic then L * W else 0) := by
    cases ic
    · simp
    · simp [calculateCeilingArea, hL, hW]
  have hsub : (room.openings.foldl accumulateOpening (JSNum.num 0, JSNum.num 0)).1
      = JSNum.num S := by
    rw [sumOpeningAreas_subtract]
    exact hS
  have hadd : (room.openings.foldl accumulateOpening (JSNum.num 0, JSNum.num 0)).2
      = JSNum.num A := by
    rw [sumOpeningAreas_add]
    exact hA
  have hkey : calculateRoomArea room ic =
      ⟨JSNum.num (2 * (L + W) * H), JSNum.num (if ic then L * W else 0),
        JSNum.num S, JSNum.num A,
        JSNum.num (max 0 (2 * (L + W) * H - S)),
        JSNum.num (max 0 (2 * (L + W) * H - S) + (if ic then L * W else 0) + A)⟩ := by
    simp only [calculateRoomArea]
    rw [hwall, hceil, hsub, hadd]
    simp
  refine ⟨?_, ?_, ?_, ?_, ?_, ?_, ?_⟩
  · rw [hkey]
  · rw [hkey]
  · rw [hkey]
    exact hS.symm
  · rw [hkey]
    exact hA.symm
  · rw [hkey]
  · rw [hkey]
    intro q hq
    have hq2 := JSNum.num.inj hq
    rw [← hq2]
    exact le_max_left 0 _
  · rw [hkey]

/-- Witness for C1: the concrete room roomW1 (10 by 5 by 2, with a
single 100 by 1 subtract opening that exceeds the wall area, so the net
wall area floors at zero). -/
theorem C1_witness :
    roomW1.length = JSVal.numv 10 ∧ roomW1.width = JSVal.numv 5 ∧
    roomW1.height = JSVal.numv 2 ∧ (0 : ℚ) < 10 ∧ (0 : ℚ) < 5 ∧ (0 : ℚ) < 2 ∧
    sumOpeningAreas Action.subtract roomW1.openings = JSNum.num 100 ∧
    sumOpeningAreas Action.add roomW1.openings = JSNum.num 0 ∧
    ((calculateRoomArea roomW1 true).wallArea = JSNum.num (2 * (10 + 5) * 2) ∧
      (calculateRoomArea roomW1 true).ceilingArea
        = JSNum.num (if true then 10 * 5 else 0) ∧
      (calculateRoomArea roomW1 true).subtractArea
        = sumOpeningAreas Action.subtract roomW1.openings ∧
      (calculateRoomArea roomW1 true).addArea
        = sumOpeningAreas Action.add roomW1.openings ∧
      (calculateRoomArea roomW1 true).netWallArea
        = JSNum.num (max 0 (2 * (10 + 5) * 2 - 100)) ∧
      (∀ q : ℚ, (calculateRoomArea roomW1 true).netWallArea = JSNum.num q → 0 ≤ q) ∧
      (calculateRoomArea roomW1 true).totalPaintableArea
        = JSNum.num (max 0 (2 * (10 + 5) * 2 - 100) + (if true then 10 * 5 else 0) + 0)) := by
  have hS : sumOpeningAreas Action.subtract roomW1.openings = JSNum.num 100 := by
    simp [roomW1, sumOpeningAreas, calculateOpeningArea, parseIntOr1, jsTrunc, openingFaces]
  have hA : sumOpeningAreas Action.add roomW1.openings = JSNum.num 0 := by
    simp [roomW1, sumOpeningAreas]
  exact ⟨rfl, rfl, rfl, by norm_num, by norm_num, by norm_num, hS, hA,
    C1_calculateRoomArea_spec roomW1 true 10 5 2 100 0 rfl rfl rfl
      (by norm_num) (by norm_num) (by norm_num) hS hA⟩

/-- C2: for every opening with numeric width and height, positive
integer quantity, action tag and optional face-count override,
calculateOpeningArea returns width times height times quantity times
max(faceCount, 1) when the action is add — where faceCount is the
override if present, else the opening type default — and width times
height times quantity when the action is subtract, the face count being
ignored. -/
theorem C2_calculateOpeningArea_spec (o : Opening) (w h : ℚ) (n : ℤ)
    (hw : o.width = JSVal.numv w) (hh : o.height = JSVal.numv h)
    (hq : o.quantity = JSVal.numv (n : ℚ)) (hn : 0 < n) :
    (o.action = Action.add →
      calculateOpeningArea o =
        JSNum.num (w * h * (n : ℚ) *
          max (o.customFaces.getD
            (match o.otype with
              | some k => (OPENING_TYPES k).faces
              | none => 0)) 1)) ∧
    (o.action = Action.subtract →
      calculateOpeningArea o = JSNum.num (w * h * (n : ℚ))) := by
  have hbase : parseFloat o.width * parseFloat o.height = JSNum.num (w * h) := by
    rw [hw, hh]
    simp
  have hqn : parseIntOr1 o.quantity = (n : ℚ) := by
    rw [hq]
    exact parseIntOr1_int n hn.ne'
  constructor
  · intro ha
    simp only [calculateOpeningArea, ha, hbase, hqn, num_mul_num,
      openingFaces_eq_getD]
  · intro ha
    simp only [calculateOpeningArea, ha, hbase, hqn, num_mul_num]

/-- Witness for C2: the concrete opening openW2, a 3 by 7 paintable
door with quantity 1 and a face-count override of 2. -/
theorem C2_witness :
    openW2.width = JSVal.numv 3 ∧ openW2.height = JSVal.numv 7 ∧
    openW2.quantity = JSVal.numv ((1 : ℤ) : ℚ) ∧ (0 : ℤ) < 1 ∧
    ((openW2.action = Action.add →
      calculateOpeningArea openW2 =
        JSNum.num (3 * 7 * ((1 : ℤ) : ℚ) *
          max (openW2.customFaces.getD
            (match openW2.otype with
              | some k => (OPENING_TYPES k).faces
              | none => 0)) 1)) ∧
    (openW2.action = Action.subtract →
      calculateOpeningArea openW2 = JSNum.num (3 * 7 * ((1 : ℤ) : ℚ)))) := by
  refine ⟨rfl, rfl, ?_, by norm_num, ?_⟩
  · norm_num [openW2]
  · exact C2_calculateOpeningArea_spec openW2 3 7 1
      (by norm_num [openW2]) (by norm_num [openW2]) (by norm_num [openW2]) (by norm_num)

lemma calculatePaintRequired_num (area coverage coats wp : ℚ) (hcov : coverage ≠ 0) :
    calculatePaintRequired (JSNum.num area) (JSNum.num coverage) (JSNum.num coats)
        (JSNum.num wp) =
      ⟨JSNum.num (area / coverage),
        JSNum.num (area / coverage * coats),
        JSNum.num (area / coverage * coats * (1 + wp / 100)),
        JSNum.num ⌈area / coverage * coats * (1 + wp / 100)⌉⟩ := by
  have h100 : (100 : ℚ) ≠ 0 := by norm_num
  simp [calculatePaintRequired, hcov, h100]

/-- C3: for every non-negative area, positive coverage, positive
integer coat count and wastage percent between 0 and 50,
calculatePaintRequired returns base = area/coverage, withCoats =
base times coats, withWastage = withCoats times (1 + wastage/100), and
rounded = the ceiling of withWastage — never below withWastage; in
particular the rounding sends 10.01 to 11 and 10.00 to 10. -/
theorem C3_calculatePaintRequired_spec (area coverage wp : ℚ) (k : ℤ)
    (harea : 0 ≤ area) (hcov : 0 < coverage) (hk : 0 < k)
    (hwp0 : 0 ≤ wp) (hwp50 : wp ≤ 50) :
    calculatePaintRequired (JSNum.num area) (JSNum.num coverage)
        (JSNum.num (k : ℚ)) (JSNum.num wp) =
      ⟨JSNum.num (area / coverage),
        JSNum.num (area / coverage * (k : ℚ)),
        JSNum.num (area / coverage * (k : ℚ) * (1 + wp / 100)),
        JSNum.num ⌈area / coverage * (k : ℚ) * (1 + wp / 100)⌉⟩ ∧
    area / coverage * (k : ℚ) * (1 + wp / 100)
      ≤ (⌈area / coverage * (k : ℚ) * (1 + wp / 100)⌉ : ℚ) ∧
    jsCeil (JSNum.num (1001 / 100)) = JSNum.num 11 ∧
    jsCeil (JSNum.num 10) = JSNum.num 10 := by
  refine ⟨calculatePaintRequired_num area coverage (k : ℚ) wp hcov.ne', Int.le_ceil _, ?_, ?_⟩
  · rw [jsCeil_num]
    have h11 : ⌈(1001 / 100 : ℚ)⌉ = (11 : ℤ) := by
      rw [Int.ceil_eq_iff]
      constructor <;> norm_num
    rw [h11]
    norm_num
  · rw [jsCeil_num]
    norm_num

/-- Witness for C3: the combined example figures — area 1591, coverage
350, 2 coats, 10 percent wastage. -/
theorem C3_witness :
    (0 : ℚ) ≤ 1591 ∧ (0 : ℚ) < 350 ∧ (0 : ℤ) < 2 ∧ (0 : ℚ) ≤ 10 ∧ (10 : ℚ) ≤ 50 ∧
    (calculatePaintRequired (JSNum.num 1591) (JSNum.num 350)
        (JSNum.num ((2 : ℤ) : ℚ)) (JSNum.num 10) =
      ⟨JSNum.num (1591 / 350),
        JSNum.num (1591 / 350 * ((2 : ℤ) : ℚ)),
        JSNum.num (1591 / 350 * ((2 : ℤ) : ℚ) * (1 + 10 / 100)),
        JSNum.num ⌈(1591 : ℚ) / 350 * ((2 : ℤ) : ℚ) * (1 + 10 / 100)⌉⟩ ∧
    (1591 : ℚ) / 350 * ((2 : ℤ) : ℚ) * (1 + 10 / 100)
      ≤ (⌈(1591 : ℚ) / 350 * ((2 : ℤ) : ℚ) * (1 + 10 / 100)⌉ : ℚ) ∧
    jsCeil (JSNum.num (1001 / 100)) = JSNum.num 11 ∧
    jsCeil (JSNum.num 10) = JSNum.num 10) :=
  ⟨by norm_num, by norm_num, by norm_num, by norm_num, by norm_num,
    C3_calculatePaintRequired_spec 1591 350 10 2
      (by norm_num) (by norm_num) (by norm_num) (by norm_num) (by norm_num)⟩

/-- C5: with non-negative area, positive coverage, positive coats and
non-negative wastage, the recommended purchase amount (the rounded
field of calculatePaintRequired) is monotonically non-decreasing in
coats, in wastage percent and in total area, the other arguments held
fixed. -/
theorem C5_recommendation_monotone (area coverage coats wp : ℚ)
    (harea : 0 ≤ area) (hcov : 0 < coverage) (hcoats : 0 < coats) (hwp : 0 ≤ wp) :
    (∀ c2, coats ≤ c2 →
      JSNum.le
        (calculatePaintRequired (JSNum.num area) (JSNum.num coverage)
          (JSNum.num coats) (JSNum.num wp)).rounded
        (calculatePaintRequired (JSNum.num area) (JSNum.num coverage)
          (JSNum.num c2) (JSNum.num wp)).rounded) ∧
    (∀ w2, wp ≤ w2 →
      JSNum.le
        (calculatePaintRequired (JSNum.num area) (JSNum.num coverage)
          (JSNum.num coats) (JSNum.num wp)).rounded
        (calculatePaintRequired (JSNum.num area) (JSNum.num coverage)
          (JSNum.num coats) (JSNum.num w2)).rounded) ∧
    (∀ a2, area ≤ a2 →
      JSNum.le
        (calculatePaintRequired (JSNum.num area) (JSNum.num coverage)
          (JSNum.num coats) (JSNum.num wp)).rounded
        (calculatePaintRequired (JSNum.num a2) (JSNum.num coverage)
          (JSNum.num coats) (JSNum.num wp)).rounded) := by
  have hA : 0 ≤ area / coverage := div_nonneg harea hcov.le
  have hW : (0 : ℚ) ≤ 1 + wp / 100 := by positivity
  have hrounded : ∀ a c w : ℚ,
      (calculatePaintRequired (JSNum.num a) (JSNum.num coverage)
        (JSNum.num c) (JSNum.num w)).rounded
        = JSNum.num (((⌈a / coverage * c * (1 + w / 100)⌉ : ℤ) : ℚ)) := by
    intro a c w
    rw [calculatePaintRequired_num a coverage c w hcov.ne']
  refine ⟨?_, ?_, ?_⟩
  · intro c2 hc2
    rw [hrounded area coats wp, hrounded area c2 wp]
    refine ⟨_, _, rfl, rfl, ?_⟩
    have hmono : area / coverage * coats * (1 + wp / 100)
        ≤ area / coverage * c2 * (1 + wp / 100) :=
      mul_le_mul_of_nonneg_right (mul_le_mul_of_nonneg_left hc2 hA) hW
    exact_mod_cast Int.ceil_le_ceil hmono
  · intro w2 hw2
    rw [hrounded area coats wp, hrounded area coats w2]
    refine ⟨_, _, rfl, rfl, ?_⟩
    have hstep : (1 : ℚ) + wp / 100 ≤ 1 + w2 / 100 := by
      have := (div_le_div_iff_of_pos_right (c := (100 : ℚ)) (by norm_num)).mpr hw2
      linarith
    have hmono : area / coverage * coats * (1 + wp / 100)
        ≤ area / coverage * coats * (1 + w2 / 100) :=
      mul_le_mul_of_nonneg_left hstep (mul_nonneg hA hcoats.le)
    exact_mod_cast Int.ceil_le_ceil hmono
  · intro a2 ha2
    rw [hrounded area coats wp, hrounded a2 coats wp]
    refine ⟨_, _, rfl, rfl, ?_⟩
    have hdiv : area / coverage ≤ a2 / coverage :=
      (div_le_div_iff_of_pos_right hcov).mpr ha2
    have hmono : area / coverage * coats * (1 + wp / 100)
        ≤ a2 / coverage * coats * (1 + wp / 100) :=
      mul_le_mul_of_nonneg_right (mul_le_mul_of_nonneg_right hdiv hcoats.le) hW
    exact_mod_cast Int.ceil_le_ceil hmono

/-- Witness for C5: at area 100, coverage 350, 2 coats and 10 percent
wastage, moving to 3 coats does not decrease the recommendation. -/
theorem C5_witness :
    (0 : ℚ) ≤ 100 ∧ (0 : ℚ) < 350 ∧ (0 : ℚ) < 2 ∧ (0 : ℚ) ≤ 10 ∧ (2 : ℚ) ≤ 3 ∧
    JSNum.le
      (calculatePaintRequired (JSNum.num 100) (JSNum.num 350)
        (JSNum.num 2) (JSNum.num 10)).rounded
      (calculatePaintRequired (JSNum.num 100) (JSNum.num 350)
        (JSNum.num 3) (JSNum.num 10)).rounded :=
  ⟨by norm_num, by norm_num, by norm_num, by norm_num, by norm_num,
    (C5_recommendation_monotone 100 350 2 10
      (by norm_num) (by norm_num) (by norm_num) (by norm_num)).1 3 (by norm_num)⟩

/-- C4: the two-room README example. Living Room 20 by 15 by 9 with a
3 by 7 prefinished door and two 6 by 4 windows subtracted gives wall
area 630, ceiling 300, subtract 69, net wall 561, total 861; Master
Bedroom 14 by 12 by 9 with a paintable door on 2 faces added, a 4 by 3
window subtracted and an 8 by 8 wardrobe on 1 face added gives wall
468, ceiling 168, subtract 12, add 106, net wall 456, total 730.
calculateAll with ceiling included, interior paint at coverage 350, 2
coats and 10 percent wastage on the imperial system totals 1591 and
yields base near 4.5457, withCoats near 9.0914, withWastage near
10.0006 and a rounded recommendation of 11. -/
theorem C4_readme_example :
    (calculateAll exampleRooms exampleSettings UnitSystem.imperial).rooms.map
        (fun rc => rc.calculations) =
      [⟨JSNum.num 630, JSNum.num 300, JSNum.num 69, JSNum.num 0,
        JSNum.num 561, JSNum.num 861⟩,
       ⟨JSNum.num 468, JSNum.num 168, JSNum.num 12, JSNum.num 106,
        JSNum.num 456, JSNum.num 730⟩] ∧
    (calculateAll exampleRooms exampleSettings UnitSystem.imperial).totals.totalPaintableArea
      = JSNum.num 1591 ∧
    (calculateAll exampleRooms exampleSettings UnitSystem.imperial).coverage = 350 ∧
    (calculateAll exampleRooms exampleSettings UnitSystem.imperial).paint.base
      = JSNum.num (1591 / 350) ∧
    (calculateAll exampleRooms exampleSettings UnitSystem.imperial).paint.withCoats
      = JSNum.num (1591 / 175) ∧
    (calculateAll exampleRooms exampleSettings UnitSystem.imperial).paint.withWastage
      = JSNum.num (17501 / 1750) ∧
    (calculateAll exampleRooms exampleSettings UnitSystem.imperial).paint.rounded
      = JSNum.num 11 ∧
    |(1591 : ℚ) / 350 - 4.5457| < 1 / 10000 ∧
    |(1591 : ℚ) / 175 - 9.0914| < 1 / 10000 ∧
    |(17501 : ℚ) / 1750 - 10.0006| < 1 / 10000 := by
  have hceil : ⌈(17501 / 1750 : ℚ)⌉ = (11 : ℤ) := by
    rw [Int.ceil_eq_iff]
    constructor <;> norm_num
  refine ⟨?_, ?_, ?_, ?_, ?_, ?_, ?_, by norm_num [abs_lt], by norm_num [abs_lt],
    by norm_num [abs_lt]⟩
  · simp [calculateAll, exampleRooms, exampleSettings, calculateRoomArea,
      calculateWallArea, calculateCeilingArea, accumulateOpening, calculateOpeningArea,
      parseIntOr1, jsTrunc, openingFaces]
    norm_num
  · simp [calculateAll, exampleRooms, exampleSettings, calculateRoomArea,
      calculateWallArea, calculateCeilingArea, accumulateOpening, calculateOpeningArea,
      parseIntOr1, jsTrunc, openingFaces, addTotals, zeroTotals]
    norm_num
  · simp [calculateAll, exampleRooms, exampleSettings, PAINT_TYPES]
  · simp [calculateAll, exampleRooms, exampleSettings, calculateRoomArea,
      calculateWallArea, calculateCeilingArea, accumulateOpening, calculateOpeningArea,
      parseIntOr1, jsTrunc, openingFaces, addTotals, zeroTotals,
      calculatePaintRequired, PAINT_TYPES]
    norm_num
  · simp [calculateAll, exampleRooms, exampleSettings, calculateRoomArea,
      calculateWallArea, calculateCeilingArea, accumulateOpening, calculateOpeningArea,
      parseIntOr1, jsTrunc, openingFaces, addTotals, zeroTotals,
      calculatePaintRequired, PAINT_TYPES]
    norm_num
  · simp [calculateAll, exampleRooms, exampleSettings, calculateRoomArea,
      calculateWallArea, calculateCeilingArea, accumulateOpening, calculateOpeningArea,
      parseIntOr1, jsTrunc, openingFaces, addTotals, zeroTotals,
      calculatePaintRequired, PAINT_TYPES]
    norm_num
  · simp [calculateAll, exampleRooms, exampleSettings, calculateRoomArea,
      calculateWallArea, calculateCeilingArea, accumulateOpening, calculateOpeningArea,
      parseIntOr1, jsTrunc, openingFaces, addTotals, zeroTotals,
      calculatePaintRequired, PAINT_TYPES]
    norm_num
    rw [hceil]
    norm_num

/-- C6: switching the unit system rescales every stored room and
opening dimension in place, with factor 0.3048 for imperial to metric
and 3.28084 for metric to imperial; 3.28084 is not the exact reciprocal
of 0.3048, and toggling imperial to metric and back is not the identity
on the room list. -/
theorem C6_unit_toggle :
    (∀ rooms, handleUnitChange UnitSystem.imperial rooms UnitSystem.metric
        = (UnitSystem.metric, rooms.map (convertRoom 0.3048))) ∧
    (∀ rooms, handleUnitChange UnitSystem.metric rooms UnitSystem.imperial
        = (UnitSystem.imperial, rooms.map (convertRoom 3.28084))) ∧
    (∀ q : ℚ, convDim 0.3048 (JSVal.numv q) = JSVal.numv (round2 (q * 0.3048))) ∧
    (∀ q : ℚ, convDim 3.28084 (JSVal.numv q) = JSVal.numv (round2 (q * 3.28084))) ∧
    (3.28084 : ℚ) * 0.3048 ≠ 1 ∧
    (∃ r : Room, convertRoom 3.28084 (convertRoom 0.3048 r) ≠ r) := by
  refine ⟨?_, ?_, fun q => rfl, fun q => rfl, by norm_num, ?_⟩
  · intro rooms
    simp [handleUnitChange]
  · intro rooms
    simp [handleUnitChange]
  · refine ⟨⟨"r", "Round Trip", JSVal.numv 20, JSVal.numv 20, JSVal.numv 20, []⟩, ?_⟩
    intro heq
    have hlen := congrArg Room.length heq
    simp [convertRoom, convDim, round2, round2Int] at hlen
    norm_num at hlen

/-- C9: the engine area functions are total and propagate NaN — on a
non-numeric dimension string they return NaN instead of failing. -/
theorem C9_nan_propagation (v w : JSVal) (o : Opening) (room : Room) (ic : Bool)
    (ho : o.width = JSVal.nonNumeric) (hr : room.length = JSVal.nonNumeric) :
    calculateWallArea JSVal.nonNumeric v w = JSNum.nan ∧
    calculateWallArea v JSVal.nonNumeric w = JSNum.nan ∧
    calculateWallArea v w JSVal.nonNumeric = JSNum.nan ∧
    calculateCeilingArea JSVal.nonNumeric v = JSNum.nan ∧
    calculateCeilingArea v JSVal.nonNumeric = JSNum.nan ∧
    calculateOpeningArea o = JSNum.nan ∧
    (calculateRoomArea room ic).wallArea = JSNum.nan ∧
    (calculateRoomArea room ic).netWallArea = JSNum.nan ∧
    (calculateRoomArea room ic).totalPaintableArea = JSNum.nan := by
  refine ⟨?_, ?_, ?_, ?_, ?_, ?_, ?_, ?_, ?_⟩
  · simp [calculateWallArea]
  · simp [calculateWallArea]
  · simp [calculateWallArea]
  · simp [calculateCeilingArea]
  · simp [calculateCeilingArea]
  · cases ha : o.action <;> simp [calculateOpeningArea, ho, ha]
  · simp [calculateRoomArea, calculateWallArea, hr]
  · simp [calculateRoomArea, calculateWallArea, hr]
  · simp [calculateRoomArea, calculateWallArea, hr]

/-- Witness for C9: the concrete opening openW9 (non-numeric width) and
room roomW9 (non-numeric length). -/
theorem C9_witness :
    openW9.width = JSVal.nonNumeric ∧ roomW9.length = JSVal.nonNumeric ∧
    (calculateWallArea JSVal.nonNumeric (JSVal.numv 3) (JSVal.numv 4) = JSNum.nan ∧
      calculateWallArea (JSVal.numv 3) JSVal.nonNumeric (JSVal.numv 4) = JSNum.nan ∧
      calculateWallArea (JSVal.numv 3) (JSVal.numv 4) JSVal.nonNumeric = JSNum.nan ∧
      calculateCeilingArea JSVal.nonNumeric (JSVal.numv 3) = JSNum.nan ∧
      calculateCeilingArea (JSVal.numv 3) JSVal.nonNumeric = JSNum.nan ∧
      calculateOpeningArea openW9 = JSNum.nan ∧
      (calculateRoomArea roomW9 true).wallArea = JSNum.nan ∧
      (calculateRoomArea roomW9 true).netWallArea = JSNum.nan ∧
      (calculateRoomArea roomW9 true).totalPaintableArea = JSNum.nan) :=
  ⟨rfl, rfl,
    C9_nan_propagation (JSVal.numv 3) (JSVal.numv 4) openW9 roomW9 true rfl rfl⟩

/-- C10: on a unit toggle a stored dimension is replaced not by the
exact product of the old value and the factor but by that product
rounded to two decimal places, so whenever the product has more than
two decimal places the stored value differs from the exact product. -/
theorem C10_toggle_rounds_dimensions (factor v : ℚ)
    (h : ¬ ∃ n : ℤ, v * factor * 100 = (n : ℚ)) :
    convDim factor (JSVal.numv v) = JSVal.numv (round2 (v * factor)) ∧
    convDim factor (JSVal.numv v) ≠ JSVal.numv (v * factor) := by
  refine ⟨rfl, ?_⟩
  intro heq
  have h2 : round2 (v * factor) = v * factor := JSVal.numv.inj heq
  apply h
  refine ⟨round2Int (v * factor), ?_⟩
  rw [round2] at h2
  have h100 : (100 : ℚ) ≠ 0 := by norm_num
  field_simp at h2
  linarith

/-- Witness for C10: converting a 20-foot length to metric, the product
20 times 0.3048 is 6.096, which has three decimal places, and the
stored value 6.10 differs from it. -/
theorem C10_witness :
    (¬ ∃ n : ℤ, (20 : ℚ) * (0.3048 : ℚ) * 100 = (n : ℚ)) ∧
    (convDim 0.3048 (JSVal.numv 20) = JSVal.numv (round2 (20 * 0.3048)) ∧
      convDim 0.3048 (JSVal.numv 20) ≠ JSVal.numv (20 * 0.3048)) := by
  have hno : ¬ ∃ n : ℤ, (20 : ℚ) * (0.3048 : ℚ) * 100 = (n : ℚ) := by
    rintro ⟨n, hn⟩
    have h1 : (n : ℚ) * 5 = 3048 := by
      rw [← hn]
      norm_num
    have h2 : n * 5 = 3048 := by exact_mod_cast h1
    omega
  exact ⟨hno, C10_toggle_rounds_dimensions 0.3048 20 hno⟩

lemma join_nil_str : String.join [] = "" := by simp [String.join_eq]

lemma join_cons_str (a : String) (l : List String) :
    String.join (a :: l) = a ++ String.join l := by
  simp [String.join_eq]
  rfl

lemma foldl_append_eq_join {α : Type} (f : α → String) (l : List α) (init : String) :
    l.foldl (fun acc x => acc ++ f x) init = init ++ String.join (l.map f) := by
  induction l generalizing init with
  | nil =>
    rw [List.foldl_nil, List.map_nil, join_nil_str, String.append_empty]
  | cons a l ih =>
    rw [List.foldl_cons, ih, List.map_cons, join_cons_str, String.append_assoc]

/-- C7: the tabular text export is exactly a title, a room table whose
header row lists Room Name and the five area columns followed by one
row per room with the room name quoted and five area figures fixed to
two decimals, a blank line, a Totals section of five labeled rows with
values fixed to two decimals and suffixed with the unit system area
label, a blank line, and a Paint Required section listing Coats,
Wastage, Coverage as rate with area per volume abbreviation, Paint
Required as withWastage to two decimals plus the volume abbreviation,
and Recommended Purchase as the rounded integer plus the volume
abbreviation. -/
theorem C7_toCSV_format (res : Results) :
    toCSV res =
      "Paint Calculator Estimate\n\n" ++
      "Room Details\n" ++
      "Room Name,Wall Area,Ceiling Area,Subtract Area,Add Area,Net Paintable Area\n" ++
      String.join (res.rooms.map (fun rc =>
        "\"" ++ rc.room.name ++ "\"," ++
        toFixed2 rc.calculations.wallArea ++ "," ++
        toFixed2 rc.calculations.ceilingArea ++ "," ++
        toFixed2 rc.calculations.subtractArea ++ "," ++
        toFixed2 rc.calculations.addArea ++ "," ++
        toFixed2 rc.calculations.totalPaintableArea ++ "\n")) ++
      "\nTotals\n" ++
      "Total Wall Area," ++ toFixed2 res.totals.wallArea ++ " " ++
        (UNIT_SYSTEMS res.unitSystem).area ++ "\n" ++
      "Total Ceiling Area," ++ toFixed2 res.totals.ceilingArea ++ " " ++
        (UNIT_SYSTEMS res.unitSystem).area ++ "\n" ++
      "Total Subtract Area," ++ toFixed2 res.totals.subtractArea ++ " " ++
        (UNIT_SYSTEMS res.unitSystem).area ++ "\n" ++
      "Total Add Area," ++ toFixed2 res.totals.addArea ++ " " ++
        (UNIT_SYSTEMS res.unitSystem).area ++ "\n" ++
      "Net Paintable Area," ++ toFixed2 res.totals.totalPaintableArea ++ " " ++
        (UNIT_SYSTEMS res.unitSystem).area ++ "\n" ++
      "\nPaint Required\n" ++
      "Coats," ++ ratToString res.settings.coats ++ "\n" ++
      "Wastage," ++ ratToString res.settings.wastagePercent ++ "%\n" ++
      "Coverage," ++ ratToString res.coverage ++ " " ++
        (UNIT_SYSTEMS res.unitSystem).area ++ "/" ++
        (UNIT_SYSTEMS res.unitSystem).volumeAbbr ++ "\n" ++
      "Paint Required," ++ toFixed2 res.paint.withWastage ++ " " ++
        (UNIT_SYSTEMS res.unitSystem).volumeAbbr ++ "\n" ++
      "Recommended Purchase," ++ jsNumToString res.paint.rounded ++ " " ++
        (UNIT_SYSTEMS res.unitSystem).volumeAbbr ++ "\n" := by
  have hrr : (fun rc : RoomWithCalc =>
      "\"" ++ rc.room.name ++ "\"," ++
      toFixed2 rc.calculations.wallArea ++ "," ++
      toFixed2 rc.calculations.ceilingArea ++ "," ++
      toFixed2 rc.calculations.subtractArea ++ "," ++
      toFixed2 rc.calculations.addArea ++ "," ++
      toFixed2 rc.calculations.totalPaintableArea ++ "\n") = roomRow := by
    funext rc
    rfl
  rw [hrr]
  simp only [toCSV]
  rw [foldl_append_eq_join]

lemma toFixed2_zero : toFixed2 (JSNum.num 0) = "0.00" := by
  have h0 : round2Int 0 = 0 := by norm_num [round2Int]
  show fmtHundredths (round2Int 0) = "0.00"
  rw [h0]
  rfl

lemma ratToString_two : ratToString 2 = "2" := by
  have hf : ⌊(2 : ℚ)⌋ = 2 := by norm_num
  rw [ratToString, if_neg (by norm_num), ratToStringNonneg, hf]
  rw [if_pos (by norm_num)]
  rfl

set_option maxRecDepth 10000 in
/-- C8: with zero rooms no result is produced, so the no-rooms state is
distinguishable from a computed zero-area result, and exporting the
result of calculateAll on an empty room list returns a well-formed
report rather than failing. -/
theorem C8_empty_rooms (s : Settings) (u : UnitSystem) :
    results ([] : List Room) s u = none ∧
    (∀ (r : Room) (rs : List Room),
      results (r :: rs) s u = some (calculateAll (r :: rs) s u)) ∧
    toCSV (calculateAll [] DEFAULT_SETTINGS UnitSystem.imperial) =
      "Paint Calculator Estimate\n\nRoom Details\nRoom Name,Wall Area,Ceiling Area,Subtract Area,Add Area,Net Paintable Area\n\nTotals\nTotal Wall Area,0.00 sq ft\nTotal Ceiling Area,0.00 sq ft\nTotal Subtract Area,0.00 sq ft\nTotal Add Area,0.00 sq ft\nNet Paintable Area,0.00 sq ft\n\nPaint Required\nCoats,2\nWastage,10%\nCoverage,350 sq ft/gal\nPaint Required,0.00 gal\nRecommended Purchase,0 gal\n" := by
  refine ⟨by simp [results], fun r rs => by simp [results], ?_⟩
  have hempty : calculateAll [] DEFAULT_SETTINGS UnitSystem.imperial =
      ⟨[], zeroTotals, ⟨JSNum.num 0, JSNum.num 0, JSNum.num 0, JSNum.num 0⟩,
        DEFAULT_SETTINGS, UnitSystem.imperial, 350⟩ := by
    simp [calculateAll, DEFAULT_SETTINGS, PAINT_TYPES, calculatePaintRequired, zeroTotals]
  have hten : ratToString 10 = "10" := by
    have hf : ⌊(10 : ℚ)⌋ = 10 := by norm_num
    rw [ratToString, if_neg (by norm_num), ratToStringNonneg, hf]
    rw [if_pos (by norm_num)]
    rfl
  have h350 : ratToString 350 = "350" := by
    have hf : ⌊(350 : ℚ)⌋ = 350 := by norm_num
    rw [ratToString, if_neg (by norm_num), ratToStringNonneg, hf]
    rw [if_pos (by norm_num)]
    rfl
  have hjs : jsNumToString (JSNum.num 0) = "0" := by
    have hf : ⌊(0 : ℚ)⌋ = 0 := by norm_num
    show ratToString 0 = "0"
    rw [ratToString, if_neg (by norm_num), ratToStringNonneg, hf]
    rw [if_pos (by norm_num)]
    rfl
  rw [hempty]
  simp only [toCSV, List.foldl_nil, zeroTotals, UNIT_SYSTEMS, DEFAULT_SETTINGS,
    toFixed2_zero, hten, h350, hjs, ratToString_two]
  decide

end PaintCalc
